import Mathlib

/-!
Verification of `generate_images.py` (earthgen image generator).

Numbers are modelled by exact rationals `ℚ` (reals `ℝ` where transcendental
functions appear); Python lists by `List`; Python dicts by association lists
in insertion order; fallible code by `Option`.
-/

namespace Earthgen

/-! ### Configuration constants (lines 65-117 of the source) -/

@[simp] def MOUNTAIN_ELEVATION : ℚ := 1000
@[simp] def HILL_ELEVATION : ℚ := 500
@[simp] def MID_OCEAN : ℚ := -1500
@[simp] def DEEP_OCEAN : ℚ := -3500
@[simp] def HEAVY_FOREST_LAI : ℚ := 8
@[simp] def FOREST_LAI : ℚ := 6.5
@[simp] def SAVANNA_TUNDRA_LAI : ℚ := 5.98
@[simp] def LAND_LAI : ℚ := 4
@[simp] def SAVANNA_MIN_TEMPERATURE : ℚ := 30 + 273.15
@[simp] def SAND_DESERT_MIN_TEMPERATURE : ℚ := 10 + 273.15
@[simp] def SNOW_DESERT_MAX_TEMPERATURE : ℚ := 10 + 273.15
@[simp] def WETLANDS_PRECIPITATION : ℚ := 2e-8
@[simp] def JUNGLE_SEASONAL_LAI_VARIATION : ℚ := 2
@[simp] def BOREAL_SEASONAL_LAI_VARIATION : ℚ := 6.5
@[simp] def DECIDUOUS_SEASONAL_LAI_VARIATION : ℚ := 8
@[simp] def JUNGLE_MIN_TEMPERATURE : ℚ := 30 + 273.15
@[simp] def SEASONAL_SNOW_RATIO : ℚ := 0.75

/-! ### Color table (lines 120-163 of the source) -/

def COLORS : List (String × (ℕ × ℕ × ℕ)) := [
  ("Jungle Forest", (94, 178, 106)),
  ("Heavy Jungle Forest", (94, 178, 106)),
  ("Deciduous Forest", (156, 204, 99)),
  ("Heavy Deciduous Forest", (156, 204, 99)),
  ("Mixed Forest", (122, 178, 69)),
  ("Heavy Mixed Forest", (122, 178, 69)),
  ("Boreal Forest", (79, 158, 69)),
  ("Heavy Boreal Forest", (79, 158, 69)),
  ("Snowy Boreal Forest", (229, 229, 229)),
  ("Heavy Snowy Boreal Forest", (229, 229, 229)),
  ("Grass", (160, 215, 107)),
  ("Sand Desert", (242, 227, 120)),
  ("Bare Land", (168, 159, 109)),
  ("Snow Desert", (229, 229, 229)),
  ("Savanna", (202, 227, 110)),
  ("Tundra", (160, 215, 107)),
  ("Swamp", (161, 214, 158)),
  ("Marsh", (173, 222, 166)),
  ("Hill Jungle Forest", (97, 135, 66)),
  ("Hill Deciduous Forest", (154, 180, 66)),
  ("Hill Mixed Forest", (132, 159, 45)),
  ("Hill Boreal Forest", (103, 139, 47)),
  ("Hill Snowy Boreal Forest", (229, 229, 229)),
  ("Hill Savanna", (217, 219, 112)),
  ("Hill Tundra", (160, 215, 107)),
  ("Mountain Jungle Forest", (199, 143, 0)),
  ("Mountains Jungle Forest", (178, 128, 0)),
  ("Mountain Deciduous Forest", (199, 143, 0)),
  ("Mountains Deciduous Forest", (178, 128, 0)),
  ("Mountain Mixed Forest", (199, 143, 0)),
  ("Mountains Mixed Forest", (178, 128, 0)),
  ("Mountain Boreal Forest", (199, 143, 0)),
  ("Mountains Boreal Forest", (178, 128, 0)),
  ("Mountain Snowy Boreal Forest", (199, 143, 0)),
  ("Mountains Snowy Boreal Forest", (178, 128, 0)),
  ("Mountain", (199, 143, 0)),
  ("Mountains", (178, 128, 0)),
  ("Snowy Mountain", (199, 143, 0)),
  ("Snowy Mountains", (178, 128, 0)),
  ("Surface Ocean", (29, 78, 145)),
  ("Mid Ocean", (18, 45, 95)),
  ("Deep Ocean", (8, 20, 49))]

/-! ### Tile data model

A tile that is present in every season carries, per season, the four
seasonal scalars read by `type_of_hex` (its season-0 `elevation` is passed
separately, as the source reads `planet[0][hx]['elevation']`). -/

structure TileSeason where
  lai : ℚ
  precipitation : ℚ
  snow : ℚ
  temperature : ℚ
deriving DecidableEq

/-- Python `max` on a nonempty list (`max([])` raises, which no claim needs;
the `[]` value `0` is junk and never relied upon). -/
def listMax : List ℚ → ℚ
  | [] => 0
  | x :: xs => xs.foldl max x

/-- Python `min` on a nonempty list (junk `0` on `[]`, as for `listMax`). -/
def listMin : List ℚ → ℚ
  | [] => 0
  | x :: xs => xs.foldl min x

/-- Python `sum`. -/
def listSum (l : List ℚ) : ℚ := l.foldl (· + ·) 0

/-- `spread` from the source: `max(lst) - min(lst)`. -/
def spread (l : List ℚ) : ℚ := listMax l - listMin l

/-- Python float `e % 2`: `e - 2*floor(e/2)`, always in `[0, 2)`. -/
def pyMod2 (e : ℚ) : ℚ := e - 2 * ((⌊e / 2⌋ : ℤ) : ℚ)

/-- Python `int(e % 2)`: truncation of a value in `[0, 2)` is its floor,
so the result is `0` or `1` (`parityIndex_lt_two`). -/
def parityIndex (e : ℚ) : ℕ := (⌊pyMod2 e⌋).toNat

/-- The classifier `type_of_hex` (source lines 182-268).

`tile` is the per-season record list for the tile (one entry per season of
the planet, so `tile.length = len(planet)`); `elevation` is the tile's
season-0 elevation. The source's early `return`s become an `if`-chain:
every branch below an early `return` is only reached when the `return`
conditions failed, exactly as in the chain. The Python tuple indexing
`('Mountain', 'Mountains')[int(elevation % 2)]` always has index 0 or 1
(`parityIndex_lt_two`), hence the two-way `if`. -/
def type_of_hex (tile : List TileSeason) (elevation : ℚ) : String :=
  let lai := tile.map TileSeason.lai
  let precip := tile.map TileSeason.precipitation
  let snow := tile.map TileSeason.snow
  let temp := tile.map TileSeason.temperature
  let snowy_threshold := SEASONAL_SNOW_RATIO * (tile.length : ℚ)
  -- Oceans
  if elevation < DEEP_OCEAN then "Deep Ocean"
  else if elevation < MID_OCEAN then "Mid Ocean"
  else if elevation < 0 then "Surface Ocean"
  -- Wetlands
  else if elevation < HILL_ELEVATION ∧
      (∀ ps ∈ precip.zip snow, ps.1 > WETLANDS_PRECIPITATION ∨ ps.2 > 0) ∧
      listSum snow < snowy_threshold then
    if listMax lai > SAVANNA_TUNDRA_LAI then "Swamp" else "Marsh"
  -- Forests
  else if listMax lai > FOREST_LAI then
    let base :=
      if spread lai < JUNGLE_SEASONAL_LAI_VARIATION ∧
          listMin temp > JUNGLE_MIN_TEMPERATURE ∧
          listSum snow < snowy_threshold then "Jungle Forest"
      else if spread lai < BOREAL_SEASONAL_LAI_VARIATION ∨
          listSum snow ≥ snowy_threshold then
        if listSum snow < snowy_threshold then "Boreal Forest" else "Snowy Boreal Forest"
      else if spread lai > DECIDUOUS_SEASONAL_LAI_VARIATION then "Deciduous Forest"
      else "Mixed Forest"
    if elevation > MOUNTAIN_ELEVATION then
      (if parityIndex elevation = 0 then "Mountain " else "Mountains ") ++ base
    else if elevation > HILL_ELEVATION then "Hill " ++ base
    else if listMax lai > HEAVY_FOREST_LAI then "Heavy " ++ base
    else base
  -- Mountains with no forests
  else if elevation > MOUNTAIN_ELEVATION then
    let name := if parityIndex elevation = 0 then "Mountain" else "Mountains"
    if listSum snow ≥ snowy_threshold ∨
        listMax (temp.map (fun t => t - elevation / 100)) < 0 then
      "Snowy " ++ name
    else name
  -- Hills and Flat Lands with some trees (but not forests)
  else if listMax lai > SAVANNA_TUNDRA_LAI then
    let name := if listMin temp > SAVANNA_MIN_TEMPERATURE then "Savanna" else "Tundra"
    if elevation > HILL_ELEVATION then "Hill " ++ name else name
  -- Hills and Flat Lands with no trees (grass or deserts)
  else if listSum snow ≥ snowy_threshold then "Snow Desert"
  else if listMax lai > LAND_LAI then "Grass"
  else if listMin temp > SAND_DESERT_MIN_TEMPERATURE then "Sand Desert"
  else if listMax temp < SNOW_DESERT_MAX_TEMPERATURE then "Snow Desert"
  else "Bare Land"


/-! ### Grid merger (source lines 169-179)

A season is a list of slices; a slice is an association list from local
axial coordinate `(ℤ × ℤ)` to tile parameters (a type parameter `β`, since
`merge_slices` never inspects them). A Python dict in insertion order is an
association list without duplicate keys; `insertHex` is `d[k] = v` guarded
by `if k not in d`. -/

/-- Exact-arithmetic model of `int(((1 + 8*n)**0.5 + 1) / 4)` (source line
170): for a nonnegative argument Python `int` truncation is the floor, and
`planet_size_of_eq_floor` proves this equals `⌊(√(1+8n)+1)/4⌋` over `ℝ`. -/
def planet_size_of (n : ℕ) : ℕ := (Nat.sqrt (1 + 8 * n) + 1) / 4

/-- `corrected_hx in d` (source line 177). -/
def containsKey {β : Type} (m : List ((ℤ × ℤ) × β)) (k : ℤ × ℤ) : Bool :=
  m.any (fun kv => decide (kv.1 = k))

/-- `if corrected_hx not in d: d[corrected_hx] = params` (source lines 177-178). -/
def insertHex {β : Type} (m : List ((ℤ × ℤ) × β)) (k : ℤ × ℤ) (v : β) :
    List ((ℤ × ℤ) × β) :=
  if containsKey m k then m else m ++ [(k, v)]

/-- First-match association-list lookup: the value a Python dict built by
first-wins insertion holds at `k`. -/
def lookupCoord {β : Type} (m : List ((ℤ × ℤ) × β)) (k : ℤ × ℤ) : Option β :=
  (m.find? (fun kv => decide (kv.1 = k))).map Prod.snd

/-- The inner two loops of `merge_slices` for one season (source lines
173-178): enumerate slices, re-address each hex by
`(hx[0] + (planet_size - 1) * i, hx[1])`, keep the first occurrence. -/
def merge_season {β : Type} (planet_size : ℕ) (season : List (List ((ℤ × ℤ) × β))) :
    List ((ℤ × ℤ) × β) :=
  season.enum.foldl
    (fun acc isl =>
      isl.2.foldl
        (fun a hv =>
          insertHex a (hv.1.1 + ((planet_size : ℤ) - 1) * isl.1, hv.1.2) hv.2)
        acc)
    []

/-- `merge_slices` (source lines 169-179). `planet.headI.headI` is
`planet[0][0]` (the source indexes unconditionally; an empty planet raises
there, and the claims assume season 0 / slice 0 exist). -/
def merge_slices {β : Type} (planet : List (List (List ((ℤ × ℤ) × β)))) :
    List (List ((ℤ × ℤ) × β)) × ℕ :=
  let planet_size := planet_size_of planet.headI.headI.length
  (planet.map (merge_season planet_size), planet_size)

/-- The re-addressed content of one season, flattened in iteration order:
slice `i`'s hex `(x, y)` becomes `((x + (planet_size - 1) * i, y), params)`.
Written from the claim's re-addressing formula; `merge_season` agrees with
first-match lookup over this list. -/
def corrected_pairs {β : Type} (planet_size : ℕ) (season : List (List ((ℤ × ℤ) × β))) :
    List ((ℤ × ℤ) × β) :=
  season.enum.flatMap
    (fun isl =>
      isl.2.map (fun hv => ((hv.1.1 + ((planet_size : ℤ) - 1) * isl.1, hv.1.2), hv.2)))

/-! ### Statistics (source lines 279-333) -/

/-- Python `word in key` (substring test), used by `key_include`. -/
def contains_word (key word : String) : Bool :=
  key.data.tails.any (fun t => word.data.isPrefixOf t)

/-- `key_include` (source lines 280-285): the source sums `Counter` counts
over the keys containing `word`; summing multiplicities over matching keys
equals counting the matching labels directly. -/
def key_include (hexes : List String) (word : String) : ℕ :=
  (hexes.filter (fun k => contains_word k word)).length

/-- `prc` (source line 321): `100 * (n / m) if m > 0 else 0`. -/
def prc (n m : ℚ) : ℚ := if 0 < m then 100 * (n / m) else 0

/-- The 20 percentage values of `gather_statistics` (source lines 287-326),
in the order they are formatted. Counts are exact integers embedded in `ℚ`. -/
def gather_statistics_params (hexes : List String) : List ℚ :=
  let total : ℚ := (hexes.length : ℚ)
  let water : ℚ := (key_include hexes "Ocean" : ℚ)
  let land : ℚ := total - water
  let hill : ℚ := (key_include hexes "Hill" : ℚ)
  let mountain : ℚ := (key_include hexes "Mountain" : ℚ)
  let flat : ℚ := land - hill - mountain
  let jungle : ℚ := (key_include hexes "Jungle" : ℚ)
  let deciduous : ℚ := (key_include hexes "Deciduous" : ℚ)
  let boreal : ℚ := (key_include hexes "Boreal" : ℚ)
  let mixed : ℚ := (key_include hexes "Mixed" : ℚ)
  let forest : ℚ := (key_include hexes "Forest" : ℚ)
  let savanna : ℚ := (key_include hexes "Savanna" : ℚ)
  let tundra : ℚ := (key_include hexes "Tundra" : ℚ)
  let grass : ℚ := (key_include hexes "Grass" : ℚ)
  let sand_desert : ℚ := (key_include hexes "Sand Desert" : ℚ)
  let snow_desert : ℚ := (key_include hexes "Snow Desert" : ℚ)
  let bare_land : ℚ := (key_include hexes "Bare Land" : ℚ)
  let all_deserts : ℚ := sand_desert + snow_desert + bare_land
  let marsh : ℚ := (key_include hexes "Marsh" : ℚ)
  let swamp : ℚ := (key_include hexes "Swamp" : ℚ)
  let wetlands : ℚ := marsh + swamp
  [prc water total, prc land total, prc hill land, prc mountain land, prc flat land,
   prc forest land, prc jungle forest, prc deciduous forest, prc boreal forest,
   prc mixed forest,
   prc savanna land, prc tundra land, prc grass land,
   prc all_deserts land, prc sand_desert all_deserts, prc snow_desert all_deserts,
   prc bare_land all_deserts,
   prc wetlands land, prc marsh wetlands, prc swamp wetlands]

/-! ### Equirectangular renderer: antimeridian split (source lines 447-470)

The per-tile drawing step is factored over an ordered field `α` so that a
witness can run it on `ℚ`; at `α := ℝ` with `twoPi := 2 * Real.pi` it is
the source computation. `cart` is the tile's subdivided boundary
(`divide_line(planet[0][hx]['coords'], 3)`), `coords` its spherical image
(`cart_to_spherical(cart)`). -/

/-- `special_case` (source lines 451-452):
`cart_coords[0][0] < 0 and not (all(y > 0 for y in ys) or all(y < 0 for y in ys))`.
(`head?.getD` is `[0]`; tile boundaries are nonempty — at least six vertices —
so the default is never read.) -/
def special_case {α : Type} [LinearOrderedField α] (cart : List (α × α × α)) : Bool :=
  decide ((cart.head?.getD (0, 0, 0)).1 < 0) &&
    !(cart.all (fun v => decide (0 < v.2.1)) || cart.all (fun v => decide (v.2.1 < 0)))

/-- `all_coords` (source lines 462-466): the list of polygons drawn for one
tile — two longitude-shifted copies when `special_case`, else the tile
itself. -/
def tile_polys {α : Type} [LinearOrderedField α] (twoPi : α)
    (cart : List (α × α × α)) (coords : List (α × α)) : List (List (α × α)) :=
  if special_case cart then
    [coords.map (fun c => if c.1 < 0 then c else (c.1 - twoPi, c.2)),
     coords.map (fun c => if c.1 > 0 then c else (c.1 + twoPi, c.2))]
  else [coords]

/-! ### Equirectangular renderer: spherical conversion (source lines 409-423)

Over `ℝ`, since the conversion is trigonometric; the definitions are
noncomputable for that reason only. Failure (`none`) models the uncaught
`IndexError` that `new_lst[-1]` raises when the very first point is a pole
(the `ZeroDivisionError` itself is always caught). In exact arithmetic the
division by `sqrt(x**2 + y**2)` raises exactly when `x^2 + y^2 = 0`. -/

/-- `lamb` (source line 411): signed arccosine longitude. -/
noncomputable def lamb (x y : ℝ) : ℝ :=
  Real.arccos (x / Real.sqrt (x ^ 2 + y ^ 2)) * (if 0 < y then 1 else -1)

/-- The loop of `cart_to_spherical` (source lines 414-423), with the output
list built so far as accumulator. -/
noncomputable def cart_to_spherical_go :
    List (ℝ × ℝ × ℝ) → List (ℝ × ℝ) → Option (List (ℝ × ℝ))
  | [], acc => some acc
  | (x, y, z) :: rest, acc =>
    if x ^ 2 + y ^ 2 = 0 then
      match acc.getLast? with
      | none => none
      | some lp =>
        cart_to_spherical_go rest
          (acc ++ [(lp.1, Real.pi / 2 * (if 0 < lp.2 then 1 else -1)),
                   (-lp.1, Real.pi / 2 * (if 0 < lp.2 then 1 else -1))])
    else
      cart_to_spherical_go rest (acc ++ [(lamb x y, Real.arcsin z)])

/-- `cart_to_spherical` (source lines 409-423). -/
noncomputable def cart_to_spherical (pts : List (ℝ × ℝ × ℝ)) : Option (List (ℝ × ℝ)) :=
  cart_to_spherical_go pts []

/-- Modelled from the spec: the conversion the claim describes, total. A
pole point (`x² + y² = 0`) is replaced by the two extreme-longitude points
at the nearest pole — latitude `±π/2` with the sign of the previously
converted point's latitude, longitudes `last` and `-last`; every other
point becomes `(signed-arccos longitude, arcsin latitude)`. The `getD`
default is never reached when the first point is not a pole. -/
noncomputable def cart_to_spherical_model_go :
    List (ℝ × ℝ × ℝ) → List (ℝ × ℝ) → List (ℝ × ℝ)
  | [], acc => acc
  | (x, y, z) :: rest, acc =>
    if x ^ 2 + y ^ 2 = 0 then
      let lp := acc.getLast?.getD (0, 0)
      cart_to_spherical_model_go rest
        (acc ++ [(lp.1, Real.pi / 2 * (if 0 < lp.2 then 1 else -1)),
                 (-lp.1, Real.pi / 2 * (if 0 < lp.2 then 1 else -1))])
    else
      cart_to_spherical_model_go rest (acc ++ [(lamb x y, Real.arcsin z)])

/-- Modelled from the spec: the total conversion, for comparison with the
source's `cart_to_spherical`. -/
noncomputable def cart_to_spherical_model (pts : List (ℝ × ℝ × ℝ)) : List (ℝ × ℝ) :=
  cart_to_spherical_model_go pts []

/-- A one-season, two-slice planet whose slice 0 has 3 hexes
(`planet_size_of 3 = 1`) and whose slice 1 overlaps slice 0 at `(0, 0)`. -/
def examplePlanet : List (List (List ((ℤ × ℤ) × ℕ))) :=
  [[[((0, 0), 10), ((0, 1), 11), ((1, 0), 12)], [((0, 0), 20)]]]

/-! ## Theorems -/

theorem pyMod2_nonneg (e : ℚ) : 0 ≤ pyMod2 e := by
  have h := Int.floor_le (e / 2)
  unfold pyMod2
  linarith

theorem pyMod2_lt_two (e : ℚ) : pyMod2 e < 2 := by
  have h := Int.lt_floor_add_one (e / 2)
  unfold pyMod2
  linarith

/-- The Python tuple index `int(elevation % 2)` is always 0 or 1, so the
indexing `('Mountain', 'Mountains')[...]` never raises. -/
theorem parityIndex_lt_two (e : ℚ) : parityIndex e < 2 := by
  have h0 : (0 : ℤ) ≤ ⌊pyMod2 e⌋ := Int.le_floor.mpr (by exact_mod_cast pyMod2_nonneg e)
  have h2 : ⌊pyMod2 e⌋ < 2 := by
    have h2' : ⌊pyMod2 e⌋ ≤ 2 := by
      have : ⌊pyMod2 e⌋ ≤ ⌊(2 : ℚ)⌋ := Int.floor_le_floor (pyMod2_lt_two e).le
      simpa using this
    rcases lt_or_eq_of_le h2' with h | h
    · exact h
    · exfalso
      have : (2 : ℚ) ≤ pyMod2 e := by
        have hf := Int.floor_le (pyMod2 e)
        rw [h] at hf
        exact_mod_cast hf
      linarith [pyMod2_lt_two e]
  unfold parityIndex
  omega

/-- C2: ocean rules dominate and use strict comparisons on season-0
elevation only: below `DEEP_OCEAN` the label is `Deep Ocean` whatever the
seasonal values are; between `DEEP_OCEAN` and `MID_OCEAN` it is
`Mid Ocean`; between `MID_OCEAN` and sea level it is `Surface Ocean`. -/
theorem ocean_tiers (tile : List TileSeason) (elevation : ℚ) :
    (elevation < DEEP_OCEAN → type_of_hex tile elevation = "Deep Ocean") ∧
    (DEEP_OCEAN ≤ elevation → elevation < MID_OCEAN →
      type_of_hex tile elevation = "Mid Ocean") ∧
    (MID_OCEAN ≤ elevation → elevation < 0 →
      type_of_hex tile elevation = "Surface Ocean") := by
  refine ⟨fun h => ?_, fun h1 h2 => ?_, fun h1 h2 => ?_⟩
  · simp only [type_of_hex]
    rw [if_pos h]
  · simp only [type_of_hex]
    rw [if_neg (not_lt.mpr h1), if_pos h2]
  · have hD : ¬ elevation < DEEP_OCEAN := by
      simp only [MID_OCEAN] at h1
      simp only [DEEP_OCEAN]
      linarith
    simp only [type_of_hex]
    rw [if_neg hD, if_neg (not_lt.mpr h1), if_pos h2]

theorem ocean_tiers_witness :
    type_of_hex [⟨0, 0, 0, 280⟩] (-4000) = "Deep Ocean" ∧
    type_of_hex [⟨0, 0, 0, 280⟩] (-2000) = "Mid Ocean" ∧
    type_of_hex [⟨0, 0, 0, 280⟩] (-100) = "Surface Ocean" :=
  ⟨(ocean_tiers _ _).1 (by norm_num),
   (ocean_tiers _ _).2.1 (by norm_num) (by norm_num),
   (ocean_tiers _ _).2.2 (by norm_num) (by norm_num)⟩

/-- C3: on a non-ocean tile below the hill threshold where every season is
wet or snow-covered and total snow stays below the snowy-season threshold,
the wetland rule fires before the forest rule: `Swamp` when peak LAI
exceeds `SAVANNA_TUNDRA_LAI` (even above `FOREST_LAI`), else `Marsh`. -/
theorem wetland_rule (tile : List TileSeason) (elevation : ℚ)
    (h0 : 0 ≤ elevation) (hhill : elevation < HILL_ELEVATION)
    (hwet : ∀ ps ∈ (tile.map TileSeason.precipitation).zip (tile.map TileSeason.snow),
      ps.1 > WETLANDS_PRECIPITATION ∨ ps.2 > 0)
    (hsnow : listSum (tile.map TileSeason.snow) <
      SEASONAL_SNOW_RATIO * (tile.length : ℚ)) :
    type_of_hex tile elevation =
      if listMax (tile.map TileSeason.lai) > SAVANNA_TUNDRA_LAI
      then "Swamp" else "Marsh" := by
  have hD : ¬ elevation < DEEP_OCEAN := by simp only [DEEP_OCEAN]; linarith
  have hM : ¬ elevation < MID_OCEAN := by simp only [MID_OCEAN]; linarith
  have hS : ¬ elevation < 0 := not_lt.mpr h0
  simp only [type_of_hex]
  rw [if_neg hD, if_neg hM, if_neg hS, if_pos ⟨hhill, hwet, hsnow⟩]

theorem wetland_rule_witness :
    type_of_hex [⟨5, 3e-8, 0, 280⟩, ⟨5, 3e-8, 0, 280⟩] 300 = "Marsh" := by
  have h := wetland_rule [⟨5, 3e-8, 0, 280⟩, ⟨5, 3e-8, 0, 280⟩] 300
    (by norm_num) (by norm_num)
    (by norm_num [List.forall_mem_cons]) (by norm_num [listSum])
  rw [h]
  norm_num [listMax, max_def]

/-- C4 (amended): on a non-forested tile above the mountain threshold the
label is `Mountain`/`Mountains` by elevation parity, prefixed `Snowy`
exactly when snow accumulation reaches the snowy-season threshold OR the
MAXIMUM over seasons of `temperature - elevation/100` is below zero (the
source line 242 takes `max`, not `min`: every season must be freezing). -/
theorem bare_mountain_snowy (tile : List TileSeason) (elevation : ℚ)
    (hforest : ¬ listMax (tile.map TileSeason.lai) > FOREST_LAI)
    (helev : elevation > MOUNTAIN_ELEVATION) :
    type_of_hex tile elevation =
      (if listSum (tile.map TileSeason.snow) ≥ SEASONAL_SNOW_RATIO * (tile.length : ℚ) ∨
          listMax ((tile.map TileSeason.temperature).map (fun t => t - elevation / 100)) < 0
        then "Snowy " else "") ++
      (if parityIndex elevation = 0 then "Mountain" else "Mountains") := by
  have he : (1000 : ℚ) < elevation := by simpa [MOUNTAIN_ELEVATION] using helev
  have hD : ¬ elevation < DEEP_OCEAN := by simp only [DEEP_OCEAN]; linarith
  have hM : ¬ elevation < MID_OCEAN := by simp only [MID_OCEAN]; linarith
  have hS : ¬ elevation < 0 := by linarith
  have hW : ¬ (elevation < HILL_ELEVATION ∧
      (∀ ps ∈ (tile.map TileSeason.precipitation).zip (tile.map TileSeason.snow),
        ps.1 > WETLANDS_PRECIPITATION ∨ ps.2 > 0) ∧
      listSum (tile.map TileSeason.snow) < SEASONAL_SNOW_RATIO * (tile.length : ℚ)) := by
    rintro ⟨hc, -, -⟩
    simp only [HILL_ELEVATION] at hc
    linarith
  simp only [type_of_hex]
  rw [if_neg hD, if_neg hM, if_neg hS, if_neg hW, if_neg hforest, if_pos helev]
  split <;> split <;> rfl

theorem bare_mountain_snowy_witness :
    type_of_hex [⟨0, 0, 1, 280⟩, ⟨0, 0, 1, 280⟩] 1001 = "Snowy Mountains" := by
  have h := bare_mountain_snowy [⟨0, 0, 1, 280⟩, ⟨0, 0, 1, 280⟩] 1001
    (by norm_num [listMax, max_def]) (by norm_num)
  rw [h]
  norm_num [listSum, listMax, max_def, parityIndex, pyMod2]
  rfl

/-- C4 is false as stated: on this non-forested mountain tile the minimum of
`temperature - elevation/100` is negative while its maximum is not and the
snow condition fails, and the code yields plain `Mountain` where the claim
requires the `Snowy` prefix. -/
theorem bare_mountain_snowy_min_cex :
    type_of_hex [⟨0, 0, 0, 1⟩, ⟨0, 0, 0, 100⟩] 1100 = "Mountain" ∧
    listMin ((([⟨0, 0, 0, 1⟩, ⟨0, 0, 0, 100⟩] : List TileSeason).map
      TileSeason.temperature).map (fun t => t - 1100 / 100)) < 0 ∧
    listSum (([⟨0, 0, 0, 1⟩, ⟨0, 0, 0, 100⟩] : List TileSeason).map TileSeason.snow) <
      SEASONAL_SNOW_RATIO * 2 ∧
    listMax (([⟨0, 0, 0, 1⟩, ⟨0, 0, 0, 100⟩] : List TileSeason).map TileSeason.lai) ≤
      FOREST_LAI ∧
    (1100 : ℚ) > MOUNTAIN_ELEVATION := by
  refine ⟨?_, by norm_num [listMin, min_def], by norm_num [listSum],
    by norm_num [listMax, max_def], by norm_num⟩
  norm_num [type_of_hex, listMax, listMin, listSum, spread, parityIndex, pyMod2,
    max_def, min_def, List.forall_mem_cons]

/-- C5 (amended): the two-season tile with elevation 1100 — an even value,
so the parity index is 0 and selects the singular form — and snow `[1, 1]`
is classified `Snowy Mountain`: the snow accumulation 2 meets the
snowy-season threshold `0.75 * 2`. -/
theorem elevation_1100_snowy_mountain :
    type_of_hex [⟨0, 0, 1, 280⟩, ⟨0, 0, 1, 280⟩] 1100 = "Snowy Mountain" ∧
    parityIndex 1100 = 0 ∧
    listSum (([⟨0, 0, 1, 280⟩, ⟨0, 0, 1, 280⟩] : List TileSeason).map TileSeason.snow) ≥
      SEASONAL_SNOW_RATIO * 2 := by
  refine ⟨?_, by norm_num [parityIndex, pyMod2], by norm_num [listSum]⟩
  norm_num [type_of_hex, listMax, listMin, listSum, spread, parityIndex, pyMod2,
    max_def, min_def, List.forall_mem_cons]
  rfl

/-- C5 is false as stated: 1100 is even, not odd, and the code classifies
the claim's tile as `Snowy Mountain`, not `Snowy Mountains`. -/
theorem elevation_1100_parity_cex :
    (type_of_hex [⟨0, 0, 1, 280⟩, ⟨0, 0, 1, 280⟩] 1100 == "Snowy Mountains") = false ∧
    type_of_hex [⟨0, 0, 1, 280⟩, ⟨0, 0, 1, 280⟩] 1100 = "Snowy Mountain" := by
  have h : type_of_hex [⟨0, 0, 1, 280⟩, ⟨0, 0, 1, 280⟩] 1100 = "Snowy Mountain" := by
    norm_num [type_of_hex, listMax, listMin, listSum, spread, parityIndex, pyMod2,
      max_def, min_def, List.forall_mem_cons]
    rfl
  exact ⟨by rw [h]; rfl, h⟩

/-- C6: the two-season tile with elevation 600, LAI `[7, 7.5]`, temperature
`[310, 305]`, snow `[0, 0]` is classified `Hill Jungle Forest`: peak LAI
7.5 exceeds the forest threshold, the LAI spread 0.5 is below the jungle
variation, the minimum temperature 305 exceeds the jungle minimum 303.15,
snow stays below the snowy threshold, and 600 is above the hill but not the
mountain threshold. -/
theorem hill_jungle_forest_scenario :
    type_of_hex [⟨7, 0, 0, 310⟩, ⟨7.5, 0, 0, 305⟩] 600 = "Hill Jungle Forest" ∧
    listMax (([⟨7, 0, 0, 310⟩, ⟨7.5, 0, 0, 305⟩] : List TileSeason).map TileSeason.lai) =
      7.5 ∧
    (7.5 : ℚ) > FOREST_LAI ∧
    spread (([⟨7, 0, 0, 310⟩, ⟨7.5, 0, 0, 305⟩] : List TileSeason).map TileSeason.lai) =
      0.5 ∧
    (0.5 : ℚ) < JUNGLE_SEASONAL_LAI_VARIATION ∧
    listMin (([⟨7, 0, 0, 310⟩, ⟨7.5, 0, 0, 305⟩] : List TileSeason).map
      TileSeason.temperature) = 305 ∧
    (305 : ℚ) > JUNGLE_MIN_TEMPERATURE ∧
    listSum (([⟨7, 0, 0, 310⟩, ⟨7.5, 0, 0, 305⟩] : List TileSeason).map TileSeason.snow) <
      SEASONAL_SNOW_RATIO * 2 ∧
    (600 : ℚ) > HILL_ELEVATION ∧ (600 : ℚ) ≤ MOUNTAIN_ELEVATION := by
  refine ⟨?_, by norm_num [listMax, max_def], by norm_num,
    by norm_num [spread, listMax, listMin, max_def, min_def], by norm_num,
    by norm_num [listMin, min_def], by norm_num, by norm_num [listSum],
    by norm_num, by norm_num⟩
  norm_num [type_of_hex, listMax, listMin, listSum, spread, parityIndex, pyMod2,
    max_def, min_def, List.forall_mem_cons]
  rfl

set_option maxHeartbeats 1600000 in
/-- C1: on any well-formed tile (at least one season) the classifier
terminates with exactly one label, that label is a key of the `COLORS`
table — so the renderer's `COLORS[tpe]` lookup cannot fail on
classifier-produced labels — and identical data yields the identical
label. -/
theorem classify_total_colors (tile : List TileSeason) (elevation : ℚ)
    (hwf : tile ≠ []) :
    (COLORS.lookup (type_of_hex tile elevation)).isSome = true ∧
    (∀ tile2 elevation2, tile2 = tile → elevation2 = elevation →
      type_of_hex tile2 elevation2 = type_of_hex tile elevation) := by
  refine ⟨?_, fun t2 e2 ht he => by rw [ht, he]⟩
  have hall : ∀ s ∈ COLORS.map Prod.fst, (COLORS.lookup s).isSome = true := by decide
  simp only [type_of_hex]
  generalize hgb :
    (if spread (tile.map TileSeason.lai) < JUNGLE_SEASONAL_LAI_VARIATION ∧
          listMin (tile.map TileSeason.temperature) > JUNGLE_MIN_TEMPERATURE ∧
          listSum (tile.map TileSeason.snow) < SEASONAL_SNOW_RATIO * (tile.length : ℚ)
      then "Jungle Forest"
      else if spread (tile.map TileSeason.lai) < BOREAL_SEASONAL_LAI_VARIATION ∨
          listSum (tile.map TileSeason.snow) ≥ SEASONAL_SNOW_RATIO * (tile.length : ℚ) then
        if listSum (tile.map TileSeason.snow) < SEASONAL_SNOW_RATIO * (tile.length : ℚ)
        then "Boreal Forest" else "Snowy Boreal Forest"
      else if spread (tile.map TileSeason.lai) > DECIDUOUS_SEASONAL_LAI_VARIATION
      then "Deciduous Forest"
      else "Mixed Forest") = b
  have hbmem : b = "Jungle Forest" ∨ b = "Boreal Forest" ∨ b = "Snowy Boreal Forest" ∨
      b = "Deciduous Forest" ∨ b = "Mixed Forest" := by
    rw [← hgb]
    split_ifs <;>
      first
        | exact Or.inl rfl
        | exact Or.inr (Or.inl rfl)
        | exact Or.inr (Or.inr (Or.inl rfl))
        | exact Or.inr (Or.inr (Or.inr (Or.inl rfl)))
        | exact Or.inr (Or.inr (Or.inr (Or.inr rfl)))
  clear hgb
  by_cases h1 : elevation < DEEP_OCEAN
  · rw [if_pos h1]; exact hall _ (by decide)
  rw [if_neg h1]
  by_cases h2 : elevation < MID_OCEAN
  · rw [if_pos h2]; exact hall _ (by decide)
  rw [if_neg h2]
  by_cases h3 : elevation < 0
  · rw [if_pos h3]; exact hall _ (by decide)
  rw [if_neg h3]
  by_cases h4 : elevation < HILL_ELEVATION ∧
      (∀ ps ∈ (tile.map TileSeason.precipitation).zip (tile.map TileSeason.snow),
        ps.1 > WETLANDS_PRECIPITATION ∨ ps.2 > 0) ∧
      listSum (tile.map TileSeason.snow) < SEASONAL_SNOW_RATIO * (tile.length : ℚ)
  · rw [if_pos h4]
    by_cases h5 : listMax (tile.map TileSeason.lai) > SAVANNA_TUNDRA_LAI
    · rw [if_pos h5]; exact hall _ (by decide)
    · rw [if_neg h5]; exact hall _ (by decide)
  rw [if_neg h4]
  by_cases hF : listMax (tile.map TileSeason.lai) > FOREST_LAI
  · rw [if_pos hF]
    by_cases hm : elevation > MOUNTAIN_ELEVATION
    · rw [if_pos hm]
      by_cases hp : parityIndex elevation = 0
      · rw [if_pos hp]
        rcases hbmem with h | h | h | h | h <;> subst h <;> exact hall _ (by decide)
      · rw [if_neg hp]
        rcases hbmem with h | h | h | h | h <;> subst h <;> exact hall _ (by decide)
    rw [if_neg hm]
    by_cases hh : elevation > HILL_ELEVATION
    · rw [if_pos hh]
      rcases hbmem with h | h | h | h | h <;> subst h <;> exact hall _ (by decide)
    rw [if_neg hh]
    by_cases hv : listMax (tile.map TileSeason.lai) > HEAVY_FOREST_LAI
    · rw [if_pos hv]
      rcases hbmem with h | h | h | h | h <;> subst h <;> exact hall _ (by decide)
    · rw [if_neg hv]
      rcases hbmem with h | h | h | h | h <;> subst h <;> exact hall _ (by decide)
  rw [if_neg hF]
  by_cases hm2 : elevation > MOUNTAIN_ELEVATION
  · rw [if_pos hm2]
    by_cases hsn : listSum (tile.map TileSeason.snow) ≥
        SEASONAL_SNOW_RATIO * (tile.length : ℚ) ∨
        listMax ((tile.map TileSeason.temperature).map (fun t => t - elevation / 100)) < 0
    · rw [if_pos hsn]
      by_cases hp : parityIndex elevation = 0
      · rw [if_pos hp]; exact hall _ (by decide)
      · rw [if_neg hp]; exact hall _ (by decide)
    · rw [if_neg hsn]
      by_cases hp : parityIndex elevation = 0
      · rw [if_pos hp]; exact hall _ (by decide)
      · rw [if_neg hp]; exact hall _ (by decide)
  rw [if_neg hm2]
  by_cases hst : listMax (tile.map TileSeason.lai) > SAVANNA_TUNDRA_LAI
  · rw [if_pos hst]
    by_cases htm : listMin (tile.map TileSeason.temperature) > SAVANNA_MIN_TEMPERATURE
    · rw [if_pos htm]
      by_cases hh2 : elevation > HILL_ELEVATION
      · rw [if_pos hh2]; exact hall _ (by decide)
      · rw [if_neg hh2]; exact hall _ (by decide)
    · rw [if_neg htm]
      by_cases hh2 : elevation > HILL_ELEVATION
      · rw [if_pos hh2]; exact hall _ (by decide)
      · rw [if_neg hh2]; exact hall _ (by decide)
  rw [if_neg hst]
  by_cases hsd : listSum (tile.map TileSeason.snow) ≥ SEASONAL_SNOW_RATIO * (tile.length : ℚ)
  · rw [if_pos hsd]; exact hall _ (by decide)
  rw [if_neg hsd]
  by_cases hg : listMax (tile.map TileSeason.lai) > LAND_LAI
  · rw [if_pos hg]; exact hall _ (by decide)
  rw [if_neg hg]
  by_cases hsa : listMin (tile.map TileSeason.temperature) > SAND_DESERT_MIN_TEMPERATURE
  · rw [if_pos hsa]; exact hall _ (by decide)
  rw [if_neg hsa]
  by_cases hsw : listMax (tile.map TileSeason.temperature) < SNOW_DESERT_MAX_TEMPERATURE
  · rw [if_pos hsw]; exact hall _ (by decide)
  · rw [if_neg hsw]; exact hall _ (by decide)

theorem classify_total_colors_witness :
    (COLORS.lookup (type_of_hex [⟨7, 0, 0, 310⟩] 600)).isSome = true :=
  (classify_total_colors [⟨7, 0, 0, 310⟩] 600 (by simp)).1

theorem containsKey_eq_isSome {β : Type} (m : List ((ℤ × ℤ) × β)) (k : ℤ × ℤ) :
    containsKey m k = (m.find? (fun kv => decide (kv.1 = k))).isSome := by
  induction m with
  | nil => rfl
  | cons kv m ih =>
    by_cases h : kv.1 = k
    · have hd : (decide (kv.1 = k)) = true := decide_eq_true h
      simp [containsKey, List.any_cons, hd, List.find?_cons_of_pos _ hd]
    · have hd : ¬ (decide (kv.1 = k)) = true := by simpa using h
      simp only [containsKey, List.any_cons, List.find?_cons_of_neg _ hd] at ih ⊢
      simp [hd, ih]

/-- Folding dict insertion over a list: an existing binding in the
accumulator wins; otherwise the first matching pair of the folded list. -/
theorem find?_foldl_insertHex {β : Type} (l : List ((ℤ × ℤ) × β)) :
    ∀ (acc : List ((ℤ × ℤ) × β)) (g : ℤ × ℤ),
      (l.foldl (fun a kv => insertHex a kv.1 kv.2) acc).find?
          (fun kv => decide (kv.1 = g)) =
        (acc.find? (fun kv => decide (kv.1 = g))).or
          (l.find? (fun kv => decide (kv.1 = g))) := by
  induction l with
  | nil =>
    intro acc g
    rw [List.foldl_nil, List.find?_nil]
    cases hfa : acc.find? (fun kv => decide (kv.1 = g)) <;> simp [hfa]
  | cons kv l ih =>
    intro acc g
    rw [List.foldl_cons, ih]
    unfold insertHex
    by_cases hc : containsKey acc kv.1 = true
    · rw [if_pos hc]
      cases hfa : acc.find? (fun kv' => decide (kv'.1 = g)) with
      | some v => rfl
      | none =>
        have hne : ¬ kv.1 = g := by
          intro he
          rw [containsKey_eq_isSome, he, hfa] at hc
          exact Bool.false_ne_true hc
        rw [List.find?_cons_of_neg _ (by simpa using hne)]
    · rw [if_neg hc]
      rw [List.find?_append]
      cases hfa : acc.find? (fun kv' => decide (kv'.1 = g)) with
      | some v => rfl
      | none =>
        by_cases hg : kv.1 = g
        · have hd : (decide (kv.1 = g)) = true := decide_eq_true hg
          simp [List.find?, hd]
        · have hd : (decide (kv.1 = g)) = false := by simpa using hg
          simp [List.find?, hd]

theorem foldl_flatMap {γ : Type} {δ : Type} {ε : Type} (L : List γ) (f : γ → List δ)
    (step : ε → δ → ε) :
    ∀ a : ε, (L.flatMap f).foldl step a = L.foldl (fun a' x => (f x).foldl step a') a := by
  induction L with
  | nil => intro a; rfl
  | cons x L ih =>
    intro a
    rw [List.flatMap_cons, List.foldl_append, ih, List.foldl_cons]

/-- `merge_season` is the first-wins dict built from the re-addressed
pairs, in iteration order. -/
theorem merge_season_eq_foldl {β : Type} (planet_size : ℕ)
    (season : List (List ((ℤ × ℤ) × β))) :
    merge_season planet_size season =
      (corrected_pairs planet_size season).foldl (fun a kv => insertHex a kv.1 kv.2) [] := by
  unfold merge_season corrected_pairs
  rw [foldl_flatMap]
  congr 1
  funext acc isl
  rw [List.foldl_map]

theorem planet_size_of_eq_floor (n : ℕ) :
    (planet_size_of n : ℤ) = ⌊(Real.sqrt ((1 + 8 * n : ℕ) : ℝ) + 1) / 4⌋ := by
  have h1 : ((Nat.sqrt (1 + 8 * n) : ℝ)) ≤ Real.sqrt ((1 + 8 * n : ℕ) : ℝ) :=
    Real.nat_sqrt_le_real_sqrt
  have h2 : Real.sqrt ((1 + 8 * n : ℕ) : ℝ) < Nat.sqrt (1 + 8 * n) + 1 :=
    Real.real_sqrt_lt_nat_sqrt_succ
  have hq1 : 4 * ((Nat.sqrt (1 + 8 * n) + 1) / 4) ≤ Nat.sqrt (1 + 8 * n) + 1 := by omega
  have hq2 : Nat.sqrt (1 + 8 * n) + 1 ≤ 4 * ((Nat.sqrt (1 + 8 * n) + 1) / 4) + 3 := by
    omega
  have hq1' : (4 : ℝ) * (((Nat.sqrt (1 + 8 * n) + 1) / 4 : ℕ) : ℝ) ≤
      (Nat.sqrt (1 + 8 * n) : ℝ) + 1 := by exact_mod_cast hq1
  have hq2' : (Nat.sqrt (1 + 8 * n) : ℝ) + 1 ≤
      4 * (((Nat.sqrt (1 + 8 * n) + 1) / 4 : ℕ) : ℝ) + 3 := by exact_mod_cast hq2
  symm
  rw [Int.floor_eq_iff]
  refine ⟨?_, ?_⟩
  · show ((planet_size_of n : ℤ) : ℝ) ≤ _
    have hcast : ((planet_size_of n : ℤ) : ℝ) = (((Nat.sqrt (1 + 8 * n) + 1) / 4 : ℕ) : ℝ) := by
      unfold planet_size_of
      norm_cast
    rw [hcast]
    linarith
  · show _ < ((planet_size_of n : ℤ) : ℝ) + 1
    have hcast : ((planet_size_of n : ℤ) : ℝ) = (((Nat.sqrt (1 + 8 * n) + 1) / 4 : ℕ) : ℝ) := by
      unfold planet_size_of
      norm_cast
    rw [hcast]
    linarith

/-- C7: `merge_slices` derives the planet size from the hex count `n` of
slice 0 of season 0 by `int((sqrt(1+8n)+1)/4)` (floor of the real formula,
in exact arithmetic); every season is merged by re-addressing slice `i`'s
`(x, y)` to `(x + (planet_size - 1) * i, y)`; and at every global
coordinate the merged season holds the first-seen tile's parameters — the
lookup agrees with first-match search of the re-addressed pairs in
iteration order, so later duplicates are dropped. -/
theorem merge_slices_spec {β : Type} (planet : List (List (List ((ℤ × ℤ) × β))))
    (h1 : planet ≠ []) (h2 : planet.headI ≠ []) :
    ((merge_slices planet).2 : ℤ) =
      ⌊(Real.sqrt ((1 + 8 * planet.headI.headI.length : ℕ) : ℝ) + 1) / 4⌋ ∧
    (merge_slices planet).1 = planet.map (merge_season (merge_slices planet).2) ∧
    ∀ season ∈ planet, ∀ g : ℤ × ℤ,
      lookupCoord (merge_season (merge_slices planet).2 season) g =
      lookupCoord (corrected_pairs (merge_slices planet).2 season) g := by
  refine ⟨planet_size_of_eq_floor _, rfl, ?_⟩
  intro season hs g
  rw [lookupCoord, lookupCoord, merge_season_eq_foldl, find?_foldl_insertHex]
  rfl

theorem merge_slices_spec_witness :
    (((merge_slices examplePlanet).2 : ℤ) =
      ⌊(Real.sqrt ((1 + 8 * examplePlanet.headI.headI.length : ℕ) : ℝ) + 1) / 4⌋) ∧
    lookupCoord (merge_season (merge_slices examplePlanet).2 examplePlanet.headI)
        ((0 : ℤ), (0 : ℤ)) =
      lookupCoord (corrected_pairs (merge_slices examplePlanet).2 examplePlanet.headI)
        ((0 : ℤ), (0 : ℤ)) ∧
    lookupCoord (corrected_pairs (merge_slices examplePlanet).2 examplePlanet.headI)
        ((0 : ℤ), (0 : ℤ)) = some 10 := by
  have hsz1 : (merge_slices examplePlanet).2 = planet_size_of 3 := rfl
  have hsz : (merge_slices examplePlanet).2 = 1 := by
    rw [hsz1]
    norm_num [planet_size_of]
  refine ⟨(merge_slices_spec examplePlanet (by decide) (by decide)).1,
    (merge_slices_spec examplePlanet (by decide) (by decide)).2.2 examplePlanet.headI
      (by decide) ((0 : ℤ), (0 : ℤ)), ?_⟩
  rw [hsz]
  decide

/-- C8 (amended): a tile is detected as antimeridian-crossing exactly when
its first subdivided boundary vertex has negative x-coordinate and its
vertices' y-coordinates are neither all strictly positive nor all strictly
negative (the source tests `not (all(y > 0) or all(y < 0))`, which also
fires when some y is exactly 0); a detected tile is drawn as exactly two
polygons — each point with non-negative longitude shifted by `-2π` in the
first and each point with non-positive longitude shifted by `+2π` in the
second — and every other tile as exactly one polygon. -/
theorem antimeridian_split {α : Type} [LinearOrderedField α] (twoPi : α)
    (cart : List (α × α × α)) (coords : List (α × α)) (hne : cart ≠ []) :
    (special_case cart = true ↔
      ((cart.head?.getD (0, 0, 0)).1 < 0 ∧
        ¬((∀ v ∈ cart, 0 < v.2.1) ∨ (∀ v ∈ cart, v.2.1 < 0)))) ∧
    (special_case cart = true →
      tile_polys twoPi cart coords =
        [coords.map (fun c => if c.1 < 0 then c else (c.1 - twoPi, c.2)),
         coords.map (fun c => if c.1 > 0 then c else (c.1 + twoPi, c.2))]) ∧
    (special_case cart = false → tile_polys twoPi cart coords = [coords]) := by
  refine ⟨?_, fun h => by simp only [tile_polys, h, if_true], fun h => by
    simp only [tile_polys, h, Bool.false_eq_true, if_false]⟩
  simp only [special_case, Bool.and_eq_true, decide_eq_true_eq, Bool.not_eq_true',
    Bool.or_eq_false_iff, List.all_eq_false, List.all_eq_true, not_or]
  constructor
  · rintro ⟨h1, ⟨v, hv, hnv⟩, ⟨w, hw, hnw⟩⟩
    exact ⟨h1, fun hall => absurd (hall v hv) hnv, fun hall => absurd (hall w hw) hnw⟩
  · rintro ⟨h1, ha, hb⟩
    push_neg at ha hb
    obtain ⟨v, hv, hnv⟩ := ha
    obtain ⟨w, hw, hnw⟩ := hb
    exact ⟨h1, ⟨v, hv, not_lt.mpr hnv⟩, ⟨w, hw, not_lt.mpr hnw⟩⟩

theorem antimeridian_split_witness :
    tile_polys (355/113 : ℚ) [((-1 : ℚ), 1, 0), (-1, -1, 0)] [(3, 0), (-3, 0)] =
      [[(3 - 355/113, 0), (-3, 0)], [(3, 0), (-3 + 355/113, 0)]] := by
  have hs : special_case ([((-1 : ℚ), 1, 0), (-1, -1, 0)] : List (ℚ × ℚ × ℚ)) = true := by
    norm_num [special_case, List.all_cons]
  have h := (antimeridian_split (355/113 : ℚ) [((-1 : ℚ), 1, 0), (-1, -1, 0)]
    [(3, 0), (-3, 0)] (by simp)).2.1 hs
  rw [h]
  norm_num

/-- C8 is false as stated: this tile's y-coordinates are `0` and `4/5` —
they do not include both a positive and a negative value — yet the code
detects it as antimeridian-crossing (the `all(y > 0)` test fails on the
zero) and draws it as two polygons, where the claim requires one. -/
theorem antimeridian_detection_cex :
    special_case ([((-1 : ℚ), 0, 0), (-3/5, 4/5, 0)] : List (ℚ × ℚ × ℚ)) = true ∧
    ([((-1 : ℚ), 0, 0), (-3/5, 4/5, 0)] : List (ℚ × ℚ × ℚ)).all
      (fun v => decide (0 ≤ v.2.1)) = true ∧
    (tile_polys (355/113 : ℚ) [((-1 : ℚ), 0, 0), (-3/5, 4/5, 0)] [(3, 0)]).length = 2 := by
  have hs : special_case ([((-1 : ℚ), 0, 0), (-3/5, 4/5, 0)] : List (ℚ × ℚ × ℚ)) = true := by
    norm_num [special_case, List.all_cons]
  refine ⟨hs, by norm_num [List.all_cons], ?_⟩
  unfold tile_polys
  rw [hs]
  rfl

theorem cart_to_spherical_go_eq_model (l : List (ℝ × ℝ × ℝ)) :
    ∀ acc : List (ℝ × ℝ), acc ≠ [] →
      cart_to_spherical_go l acc = some (cart_to_spherical_model_go l acc) := by
  induction l with
  | nil => intro acc h; rfl
  | cons p rest ih =>
    intro acc h
    obtain ⟨x, y, z⟩ := p
    obtain ⟨lp, hlp⟩ := Option.isSome_iff_exists.mp (List.getLast?_isSome.mpr h)
    by_cases hp : x ^ 2 + y ^ 2 = 0
    · rw [cart_to_spherical_go, cart_to_spherical_model_go, if_pos hp, if_pos hp, hlp]
      simp only [Option.getD_some]
      exact ih _ (by simp)
    · rw [cart_to_spherical_go, cart_to_spherical_model_go, if_neg hp, if_neg hp]
      exact ih _ (by simp)

/-- C9 (amended): on any list of unit boundary points whose FIRST point is
not a pole (`x² + y² ≠ 0`), `cart_to_spherical` catches every
division-by-zero at a pole point and returns the spliced conversion: the
pole point becomes the two points at the nearest pole (latitude `±π/2`
signed by the previously converted point's latitude, longitudes `last` and
`-last`), and every non-pole point becomes
`(signed-arccos longitude, arcsin latitude)`. When the first point IS a
pole the source instead raises an uncaught `IndexError` (`new_lst[-1]` on
an empty list), so the claim's unrestricted form fails
(`cart_to_spherical_pole_first_cex`). -/
theorem cart_to_spherical_total (pts : List (ℝ × ℝ × ℝ)) (x y z : ℝ)
    (rest : List (ℝ × ℝ × ℝ)) (hpts : pts = (x, y, z) :: rest)
    (hunit : ∀ v ∈ pts, v.1 ^ 2 + v.2.1 ^ 2 + v.2.2 ^ 2 = 1)
    (hpole : x ^ 2 + y ^ 2 ≠ 0) :
    cart_to_spherical pts = some (cart_to_spherical_model pts) := by
  subst hpts
  rw [cart_to_spherical, cart_to_spherical_model, cart_to_spherical_go,
    cart_to_spherical_model_go, if_neg hpole, if_neg hpole]
  exact cart_to_spherical_go_eq_model rest _ (by simp)

theorem cart_to_spherical_total_witness :
    cart_to_spherical [((1 : ℝ), 0, 0)] =
      some (cart_to_spherical_model [((1 : ℝ), 0, 0)]) :=
  cart_to_spherical_total [((1 : ℝ), 0, 0)] 1 0 0 [] rfl
    (by norm_num [List.forall_mem_cons]) (by norm_num)

/-- C9 is false as stated: when the pole point comes first there is no
previously converted point, and instead of splicing, the conversion fails
(the uncaught `IndexError` of `new_lst[-1]`, modelled as `none`). -/
theorem cart_to_spherical_pole_first_cex :
    cart_to_spherical [((0 : ℝ), 0, 1)] = none := by
  rw [cart_to_spherical, cart_to_spherical_go, if_pos (by norm_num)]
  rfl

/-- C10: every reported percentage `prc n m` is `0` when the denominator is
`0` (never an error), and `100 * (n / m)` when the count `m` is positive;
in particular with no forest tiles the four forest-composition entries
(indices 6-9: jungle, deciduous, boreal, mixed) are all `0`. -/
theorem statistics_zero_denominator (hexes : List String) :
    (∀ n : ℚ, prc n 0 = 0) ∧
    (∀ (n : ℚ) (m : ℕ), 0 < m → prc n (m : ℚ) = 100 * (n / m)) ∧
    (key_include hexes "Forest" = 0 →
      (gather_statistics_params hexes).get? 6 = some 0 ∧
      (gather_statistics_params hexes).get? 7 = some 0 ∧
      (gather_statistics_params hexes).get? 8 = some 0 ∧
      (gather_statistics_params hexes).get? 9 = some 0) := by
  refine ⟨fun n => by simp [prc], fun n m hm => by
    rw [prc, if_pos (by exact_mod_cast hm)], fun hf => ?_⟩
  have h0 : ((key_include hexes "Forest" : ℕ) : ℚ) = 0 := by rw [hf]; norm_num
  unfold gather_statistics_params
  refine ⟨?_, ?_, ?_, ?_⟩ <;>
    simp only [List.get?_cons_succ, List.get?_cons_zero, Option.some.injEq] <;>
    rw [h0] <;> simp [prc]

theorem statistics_zero_denominator_witness :
    (gather_statistics_params ["Grass", "Deep Ocean"]).get? 6 = some 0 ∧ prc 5 0 = 0 :=
  ⟨((statistics_zero_denominator ["Grass", "Deep Ocean"]).2.2 (by decide)).1,
   (statistics_zero_denominator ["Grass", "Deep Ocean"]).1 5⟩

end Earthgen
